import Mathlib

/-!
Shallow embedding of the user-context/session management and data-isolation
layer of the maratron AI server (files context.py, security/data_isolation.py,
user_context/security.py, user_context/tools.py), together with theorems
checking the natural-language specification against it.

Python strings are modelled as lists of characters, Python dictionaries as
functions to Option or as association lists, datetimes as natural numbers on
an abstract clock, and the external database as an environment record whose
fields give the results the store returns to each query the code issues.
-/

namespace Maratron

/-! ## Python string primitives used by the code -/

/-- A Python string, modelled as its list of characters. -/
abbrev PyStr := List Char

/-- Python str.upper on the ASCII queries the code handles. -/
def pyUpper (s : PyStr) : PyStr := s.map Char.toUpper

/-- Does the haystack start with the pattern (helper for substring search). -/
def matchesAt : PyStr → PyStr → Bool
  | [], _ => true
  | _ :: _, [] => false
  | p :: ps, h :: hs => p == h && matchesAt ps hs

/-- Python substring test: `pat in hay`. -/
def hasSub (pat : PyStr) : PyStr → Bool
  | [] => matchesAt pat []
  | h :: hs => matchesAt pat (h :: hs) || hasSub pat (hs)

/-! ## SecureDataAccess._has_user_filter (security/data_isolation.py) -/

/-- The system_queries allow-list from _has_user_filter. -/
def systemQueries : List PyStr :=
  ["INFORMATION_SCHEMA".data, "SHOW TABLES".data, "DESCRIBE".data,
   "SELECT 1".data, "SELECT COUNT(*) FROM INFORMATION_SCHEMA".data]

/-- The user_filter_patterns list from _has_user_filter. -/
def userFilterPatterns : List PyStr :=
  ["\"USERID\"".data, "USERID".data, "\"userId\"".data, "userId".data,
   "WHERE id=$".data, "WHERE ID=$".data]

/-- Translation of SecureDataAccess._has_user_filter: uppercase the query,
accept if any system query or any user-filter pattern occurs in it. -/
def hasUserFilter (query : PyStr) : Bool :=
  let queryUpper := pyUpper query
  systemQueries.any (fun p => hasSub p queryUpper) ||
    userFilterPatterns.any (fun p => hasSub p queryUpper)

/-! ## Preference values (dynamic JSON values)

Python preference payloads are JSON objects whose values are strings,
integers or booleans. The bool-is-an-int subtlety of Python is dropped:
values of the three kinds are distinct, as they are in JSON.
-/

/-- A dynamically typed preference value (a JSON scalar). -/
inductive PrefValue where
  | str (s : String)
  | int (n : Int)
  | bool (b : Bool)
deriving DecidableEq, Repr

/-- A parsed preferences JSON object: keys with values. A Python dict has
unique keys; lookups below take the last entry so that duplicate keys,
were they present, would behave like repeated dict assignment. -/
abbrev Patch := List (String × PrefValue)

/-- The value a dict lookup returns for a key (later entries win). -/
def lastVal (P : Patch) (k : String) : Option PrefValue :=
  match P with
  | [] => none
  | kv :: t =>
    match lastVal t k with
    | some v => some v
    | none => if kv.1 = k then some kv.2 else none

/-! ## UserPreferences (context.py, pydantic model)

Fields are dynamically typed because plain attribute assignment in the
source bypasses pydantic validation, so a field can end up holding any
value; the constructor validates, assignment does not.
-/

structure UserPreferences where
  distance_unit : PrefValue := .str "miles"
  date_format : PrefValue := .str "YYYY-MM-DD"
  timezone : PrefValue := .str "UTC"
  language : PrefValue := .str "en"
  notification_enabled : PrefValue := .bool true
  detailed_responses : PrefValue := .bool true
  include_social_data : PrefValue := .bool true
  max_results_per_query : PrefValue := .int 10
deriving DecidableEq, Repr

/-- The attribute names of the UserPreferences model (hasattr succeeds). -/
def prefFieldNames : List String :=
  ["distance_unit", "date_format", "timezone", "language",
   "notification_enabled", "detailed_responses", "include_social_data",
   "max_results_per_query"]

/-- Assignment of a declared field of the pydantic model: the raw value is
stored, since validate_assignment is off. This models setattr only on the
eight field names; the full setattr semantics of the update loop, where
other attribute names make pydantic raise, is applyPatchLoop below. -/
def setPrefField (pr : UserPreferences) (k : String) (v : PrefValue) : UserPreferences :=
  if k = "distance_unit" then { pr with distance_unit := v }
  else if k = "date_format" then { pr with date_format := v }
  else if k = "timezone" then { pr with timezone := v }
  else if k = "language" then { pr with language := v }
  else if k = "notification_enabled" then { pr with notification_enabled := v }
  else if k = "detailed_responses" then { pr with detailed_responses := v }
  else if k = "include_social_data" then { pr with include_social_data := v }
  else if k = "max_results_per_query" then { pr with max_results_per_query := v }
  else pr

/-- A sequence of raw field assignments (helper used to characterize what
the update loop has applied when it finishes or aborts). -/
def applyPatchExisting (pr : UserPreferences) (P : Patch) : UserPreferences :=
  P.foldl (fun a kv => setPrefField a kv.1 kv.2) pr

/-- Is the key one of the UserPreferences model fields. -/
def isPrefField (k : String) : Bool :=
  k = "distance_unit" || k = "date_format" || k = "timezone" || k = "language" ||
  k = "notification_enabled" || k = "detailed_responses" ||
  k = "include_social_data" || k = "max_results_per_query"

/-- The setattr loop of UserContextManager.update_user_preferences when the
session already has a preferences object: hasattr is true on the eight
declared fields and on the attribute surface of the pydantic BaseModel
(method and config names such as copy, dict, model_config); that surface
is fixed by the pydantic library, not by this repository, so it enters the
development as a function attr from names to Bool over which the theorems
quantify. setattr on a declared field assigns the raw value
(validate_assignment is off); on any other hasattr-true name pydantic
raises ValueError, aborting the loop with the earlier assignments kept
(the preferences object is mutated in place); a name with hasattr false
is skipped. Returns the mutated preferences and the name that raised, if
any. -/
def applyPatchLoop (attr : String → Bool) (pr : UserPreferences) :
    Patch → UserPreferences × Option String
  | [] => (pr, none)
  | (k, v) :: t =>
    if isPrefField k then applyPatchLoop attr (setPrefField pr k v) t
    else if attr k then (pr, some k)
    else applyPatchLoop attr pr t

/-- The assignments the update loop performs: the field-keyed entries up to
the first name on which setattr raises. -/
def effPatch (attr : String → Bool) : Patch → Patch
  | [] => []
  | (k, v) :: t =>
    if isPrefField k then (k, v) :: effPatch attr t
    else if attr k then []
    else effPatch attr t

/-- The first patch key on which setattr raises, if any; it does not depend
on the preferences the loop runs on. -/
def abortKey (attr : String → Bool) : Patch → Option String
  | [] => none
  | (k, _) :: t =>
    if isPrefField k then abortKey attr t
    else if attr k then some k
    else abortKey attr t

/-- Pydantic field validation for the constructor path, per the Field
declarations in context.py (distance_unit pattern, max_results range). -/
def fieldValid (k : String) (v : PrefValue) : Bool :=
  if k = "distance_unit" then
    match v with
    | .str s => s = "miles" || s = "kilometers"
    | _ => false
  else if k = "max_results_per_query" then
    match v with
    | .int n => 1 ≤ n && n ≤ 100
    | _ => false
  else if k = "date_format" || k = "timezone" || k = "language" then
    match v with
    | .str _ => true
    | _ => false
  else
    match v with
    | .bool _ => true
    | _ => false

/-- Does the constructor UserPreferences(**P) succeed: every provided
recognized field must pass its validation; unknown keys are ignored. -/
def patchConstructorValid (P : Patch) : Bool :=
  prefFieldNames.all (fun k =>
    match lastVal P k with
    | none => true
    | some v => fieldValid k v)

/-- The pydantic constructor UserPreferences(**P): validated fields from the
patch, defaults for the rest; a ValidationError if any provided recognized
field is invalid. -/
def prefsFromPatch (P : Patch) : Except String UserPreferences :=
  if patchConstructorValid P then
    .ok
      { distance_unit := (lastVal P "distance_unit").getD (.str "miles"),
        date_format := (lastVal P "date_format").getD (.str "YYYY-MM-DD"),
        timezone := (lastVal P "timezone").getD (.str "UTC"),
        language := (lastVal P "language").getD (.str "en"),
        notification_enabled := (lastVal P "notification_enabled").getD (.bool true),
        detailed_responses := (lastVal P "detailed_responses").getD (.bool true),
        include_social_data := (lastVal P "include_social_data").getD (.bool true),
        max_results_per_query := (lastVal P "max_results_per_query").getD (.int 10) }
  else .error "pydantic validation error"

def msgDistanceUnit : String := "distance_unit must be miles or kilometers"

def msgMaxResults : String := "max_results_per_query must be an integer between 1 and 100"

def msgDetailed : String := "detailed_responses must be a boolean"

def msgSocial : String := "include_social_data must be a boolean"

def msgTimezone : String := "timezone must be a valid timezone string"

/-- isinstance int plus range check used for max_results_per_query. A
Python bool is an int, so the check accepts true (which equals 1, inside
the range) and rejects false (0, below the range). -/
def validMaxResults (v : PrefValue) : Bool :=
  match v with
  | .int n => 1 ≤ n && n ≤ 100
  | .bool b => b
  | _ => false

/-- The distance_unit membership check of the validator. -/
def validUnit (v : PrefValue) : Bool :=
  match v with
  | .str s => s = "miles" || s = "kilometers"
  | _ => false

/-- isinstance bool check. -/
def validBoolVal (v : PrefValue) : Bool :=
  match v with
  | .bool _ => true
  | _ => false

/-- isinstance str with length at most 50, for timezone. -/
def validTimezone (v : PrefValue) : Bool :=
  match v with
  | .str s => s.length ≤ 50
  | _ => false

/-- One conditional block of validate_preferences_json: if the key is
present and its value fails the check, the update is rejected with the
message of that field. -/
def checkField (P : Patch) (k : String) (ok : PrefValue → Bool) (msg : String) :
    Option (Bool × String) :=
  match lastVal P k with
  | some v => if ok v then none else some (false, msg)
  | none => none

/-- SecurityValidator.validate_preferences_json on an already-parsed JSON
object: the five field checks in source order, first failure wins. -/
def validatePreferencesDict (P : Patch) : Bool × String :=
  match checkField P "distance_unit" validUnit msgDistanceUnit with
  | some r => r
  | none =>
    match checkField P "max_results_per_query" validMaxResults msgMaxResults with
    | some r => r
    | none =>
      match checkField P "detailed_responses" validBoolVal msgDetailed with
      | some r => r
      | none =>
        match checkField P "include_social_data" validBoolVal msgSocial with
        | some r => r
        | none =>
          match checkField P "timezone" validTimezone msgTimezone with
          | some r => r
          | none => (true, "Valid preferences")

/-- The keys the validator has a contract for, with that contract. -/
def contractOk (k : String) (v : PrefValue) : Bool :=
  if k = "distance_unit" then validUnit v
  else if k = "max_results_per_query" then validMaxResults v
  else if k = "detailed_responses" then validBoolVal v
  else if k = "include_social_data" then validBoolVal v
  else if k = "timezone" then validTimezone v
  else true

/-- The keys checked by validate_preferences_json. -/
def validatedKeys : List String :=
  ["distance_unit", "max_results_per_query", "detailed_responses",
   "include_social_data", "timezone"]

/-- Outcome of the update_user_preferences tool entry point. -/
inductive ToolOutcome where
  | noContext
  | invalid (msg : String)
  | updated
  | failed (msg : String)
deriving DecidableEq, Repr

/-- tools.update_user_preferences: no-session guard, then the validator,
then the manager update; an exception in the manager call is caught and
reported as a failure, with the session keeping whatever in-place
mutation the aborted merge already performed. -/
def updatePreferencesTool (attr : String → Bool)
    (sess : Option (Option UserPreferences)) (P : Patch) :
    ToolOutcome × Option (Option UserPreferences) :=
  match sess with
  | none => (.noContext, none)
  | some cur =>
    let r := validatePreferencesDict P
    if r.1 = false then (.invalid r.2, some cur)
    else
      match cur with
      | some pr =>
        let res := applyPatchLoop attr pr P
        match res.2 with
        | some k => (.failed ("object has no field " ++ k), some (some res.1))
        | none => (.updated, some (some res.1))
      | none =>
        match prefsFromPatch P with
        | .ok pr => (.updated, some (some pr))
        | .error e => (.failed e, some none)

/-! ## Sessions and the context manager (context.py)

Datetimes are a single abstract clock counted in minutes, passed to each
operation as the value datetime.utcnow() returns there. The session map
(a Python dict) is a function from user id to an optional session.
-/

structure ConversationContext where
  last_topic : Option String := none
  mentioned_runs : List String := []
  mentioned_shoes : List String := []
  mentioned_goals : List String := []
  conversation_mood : String := "neutral"
  last_action : Option String := none
deriving DecidableEq, Repr

/-- cached_user_data and session_metadata dictionaries, as key-value lists. -/
abbrev CachedData := List (String × PrefValue)

structure UserSession where
  user_id : String
  session_id : String
  created_at : Nat
  last_activity : Nat
  preferences : Option UserPreferences
  conversation_context : ConversationContext
  cached_user_data : CachedData
  session_metadata : CachedData
  db_id : Option String
  needs_db_save : Bool
deriving DecidableEq, Repr

/-- UserSession.__init__ with no explicit session id: the id is derived from
the user id and the current clock, _needs_db_save starts false. -/
def newUserSession (user_id : String) (now : Nat) : UserSession :=
  { user_id := user_id,
    session_id := "session_" ++ user_id ++ "_" ++ toString now,
    created_at := now,
    last_activity := now,
    preferences := none,
    conversation_context := {},
    cached_user_data := [],
    session_metadata := [],
    db_id := none,
    needs_db_save := false }

/-- UserSession.update_activity. -/
def updateActivity (s : UserSession) (now : Nat) : UserSession :=
  { s with last_activity := now, needs_db_save := true }

/-- UserSession.is_expired with the default 60 minute timeout: strictly past
last_activity plus the timeout. -/
def isExpired (s : UserSession) (now : Nat) : Bool :=
  decide (s.last_activity + 60 < now)

/-- UserSession.mark_dirty. -/
def markDirty (s : UserSession) : UserSession := { s with needs_db_save := true }

/-- UserSession.mark_clean. -/
def markClean (s : UserSession) : UserSession := { s with needs_db_save := false }

/-- The serialized payload UserSession.to_dict stores and from_dict reads. -/
structure StoredSession where
  user_id : String
  session_id : String
  created_at : Nat
  last_activity : Nat
  preferences : Option UserPreferences
  conversation_context : ConversationContext
  cached_user_data : CachedData
  session_metadata : CachedData
deriving DecidableEq, Repr

/-- UserSession.from_dict: rebuild a session from stored data; the loaded
session is clean and remembers its database record id. -/
def sessionFromDict (d : StoredSession) (dbId : String) : UserSession :=
  { user_id := d.user_id,
    session_id := d.session_id,
    created_at := d.created_at,
    last_activity := d.last_activity,
    preferences := d.preferences,
    conversation_context := d.conversation_context,
    cached_user_data := d.cached_user_data,
    session_metadata := d.session_metadata,
    db_id := some dbId,
    needs_db_save := false }

/-- A row of the UserSessions table as the recovery and load queries return
it: the record id and the deserialized payload. -/
structure SessionRow where
  id : String
  data : StoredSession
deriving DecidableEq, Repr

/-- The in-memory state of UserContextManager. -/
structure UserContextManager where
  active_sessions : String → Option UserSession
  current_user_id : Option String
  initialized : Bool

/-- Dict assignment active_sessions[uid] = s. -/
def setSession (st : UserContextManager) (uid : String) (s : UserSession) :
    UserContextManager :=
  { st with active_sessions := fun u => if u = uid then some s else st.active_sessions u }

/-- Dict deletion del active_sessions[uid]. -/
def delSession (st : UserContextManager) (uid : String) : UserContextManager :=
  { st with active_sessions := fun u => if u = uid then none else st.active_sessions u }

/-- The external world of one manager operation: the replies the user store
and the durable session store give to the queries the code issues, and
whether a durable write succeeds. -/
structure Env where
  user_exists : String → Bool
  recovery_rows : List SessionRow
  load_row : String → Option SessionRow
  default_unit : String → Option String
  cached_data : String → CachedData
  save_ok : Bool
  new_db_id : String

/-- UserContextManager.get_current_session: the synchronous expiry check on
every access; a live session is touched in place, an expired one is
evicted and the current-user pointer cleared. -/
def getCurrentSession (st : UserContextManager) (now : Nat) :
    Option UserSession × UserContextManager :=
  match st.current_user_id with
  | some uid =>
    match st.active_sessions uid with
    | some s =>
      if isExpired s now = false then
        let s2 := updateActivity s now
        (some s2, setSession st uid s2)
      else
        (none, { delSession st uid with current_user_id := none })
    | none => (none, st)
  | none => (none, st)

/-- UserContextManager.get_current_user_id. -/
def getCurrentUserId (st : UserContextManager) (now : Nat) :
    Option String × UserContextManager :=
  let r := getCurrentSession st now
  (r.1.map (fun s => s.user_id), r.2)

/-- One iteration of the recovery loop: keep the row if the user has no
in-memory session yet, otherwise mark the row inactive in storage
(collected as the list of updated row ids). -/
def recoverStep (acc : UserContextManager × List String) (row : SessionRow) :
    UserContextManager × List String :=
  let s := sessionFromDict row.data row.id
  match acc.1.active_sessions s.user_id with
  | none => (setSession acc.1 s.user_id s, acc.2)
  | some _ => (acc.1, acc.2 ++ [row.id])

/-- UserContextManager._recover_sessions_on_startup: a no-op once
initialized; otherwise folds the recovery rows, which the store returns
ordered by last activity, newest first. -/
def recoverSessionsOnStartup (st : UserContextManager) (env : Env) :
    UserContextManager × List String :=
  if st.initialized then (st, [])
  else env.recovery_rows.foldl recoverStep ({ st with initialized := true }, [])

/-- UserContextManager._load_session_from_db: the most recent active
unexpired row for the user, deserialized; storage failure means none. -/
def loadSessionFromDb (env : Env) (uid : String) : Option UserSession :=
  (env.load_row uid).map (fun row => sessionFromDict row.data row.id)

/-- UserContextManager._load_user_preferences: the default distance unit
from the user row when valid, otherwise (missing row, invalid unit or
storage failure) default preferences. -/
def loadUserPreferences (env : Env) (s : UserSession) : UserSession :=
  match env.default_unit s.user_id with
  | some u =>
    if u = "miles" || u = "kilometers" then
      { s with preferences := some { distance_unit := .str u } }
    else { s with preferences := some {} }
  | none => { s with preferences := some {} }

/-- UserContextManager._cache_user_data. -/
def cacheUserData (env : Env) (s : UserSession) : UserSession :=
  { s with cached_user_data := env.cached_data s.user_id }

/-- The part of UserContextManager.set_current_user after the recovery
call: user existence check (a ValueError when unknown), then in-memory
session, else durable load, else a fresh session. -/
def setCurrentUserAfterRecovery (st1 : UserContextManager) (env : Env) (now : Nat)
    (uid : String) : Except String UserSession × UserContextManager :=
  if env.user_exists uid = false then
    (.error ("User " ++ uid ++ " not found"), st1)
  else
    let st2 := { st1 with current_user_id := some uid }
    match st2.active_sessions uid with
    | some s =>
      let s2 := updateActivity s now
      (.ok s2, setSession st2 uid s2)
    | none =>
      match loadSessionFromDb env uid with
      | some s =>
        let s2 := updateActivity s now
        (.ok s2, setSession st2 uid s2)
      | none =>
        let s0 := markDirty (newUserSession uid now)
        let s1 := cacheUserData env (loadUserPreferences env s0)
        (.ok s1, setSession st2 uid s1)

/-- UserContextManager.set_current_user: recovery on first use, then the
body above. Also returns the row ids the recovery pass marked inactive. -/
def setCurrentUser (st : UserContextManager) (env : Env) (now : Nat) (uid : String) :
    Except String UserSession × UserContextManager × List String :=
  let rec1 := recoverSessionsOnStartup st env
  let r := setCurrentUserAfterRecovery rec1.1 env now uid
  (r.1, r.2, rec1.2)

/-- The manager state after one set_current_user call (for iterating). -/
def setUserStep (env : Env) (uid : String) (st : UserContextManager) (t : Nat) :
    UserContextManager :=
  (setCurrentUser st env t uid).2.1

/-- UserContextManager._save_session_to_db: a fresh record id is assigned
before an insert is attempted; any storage exception is swallowed. The
boolean reports whether the durable write happened. -/
def saveSessionToDb (s : UserSession) (env : Env) : UserSession × Bool :=
  match s.db_id with
  | some _ => (s, env.save_ok)
  | none => ({ s with db_id := some env.new_db_id }, env.save_ok)

/-- The per-session body of UserContextManager._periodic_save_sessions: a
dirty session is saved and then marked clean; mark_clean is reached even
when the durable write inside _save_session_to_db failed, because that
failure is swallowed there. -/
def saveLoopBody (s : UserSession) (env : Env) : UserSession :=
  if s.needs_db_save then markClean (saveSessionToDb s env).1 else s

/-! ## SecureDataAccess convenience getters (security/data_isolation.py)

Rows returned by the pool are opaque strings; audit events mirror the two
SecurityAuditLog methods. The lock emoji of the source messages is elided.
-/

inductive AuditEvent where
  | violation (user : Option String) (attempted : String) (reason : String)
  | access (user : Option String) (operation : String) (table : String)
deriving DecidableEq, Repr

/-- The database pool as the replies it would give the three getters. -/
structure DbPool where
  runs : String → List String
  shoes : String → List String
  profile : String → Option String

/-- Result of a guarded convenience getter: outcome, manager state after the
embedded get_current_user_id call, audit log entries emitted, and how many
database queries were executed. -/
structure GuardedResult (α : Type) where
  result : Except String α
  state : UserContextManager
  audit : List AuditEvent
  db_queries : Nat

def accessDeniedData : String := "Access denied: Can only access your own data"

def accessDeniedProfile : String := "Access denied: Can only access your own profile"

/-- SecureDataAccess.get_user_runs. -/
def getUserRuns (st : UserContextManager) (now : Nat) (pool : DbPool)
    (user_id : String) (limit : Nat) : GuardedResult (List String) :=
  let r := getCurrentUserId st now
  if r.1 ≠ some user_id then
    { result := .error accessDeniedData,
      state := r.2,
      audit := [.violation r.1 ("access runs for user " ++ user_id)
        "Attempted cross-user data access"],
      db_queries := 0 }
  else
    { result := .ok ((pool.runs user_id).take limit),
      state := r.2,
      audit := [.access r.1 "get_runs" "Runs"],
      db_queries := 1 }

/-- SecureDataAccess.get_user_shoes. -/
def getUserShoes (st : UserContextManager) (now : Nat) (pool : DbPool)
    (user_id : String) : GuardedResult (List String) :=
  let r := getCurrentUserId st now
  if r.1 ≠ some user_id then
    { result := .error accessDeniedData,
      state := r.2,
      audit := [.violation r.1 ("access shoes for user " ++ user_id)
        "Attempted cross-user data access"],
      db_queries := 0 }
  else
    { result := .ok (pool.shoes user_id),
      state := r.2,
      audit := [.access r.1 "get_shoes" "Shoes"],
      db_queries := 1 }

/-- SecureDataAccess.get_user_profile. -/
def getUserProfile (st : UserContextManager) (now : Nat) (pool : DbPool)
    (user_id : String) : GuardedResult (Option String) :=
  let r := getCurrentUserId st now
  if r.1 ≠ some user_id then
    { result := .error accessDeniedProfile,
      state := r.2,
      audit := [.violation r.1 ("access profile for user " ++ user_id)
        "Attempted cross-user data access"],
      db_queries := 0 }
  else
    { result := .ok (pool.profile user_id),
      state := r.2,
      audit := [.access r.1 "get_profile" "Users"],
      db_queries := 1 }

/-! ## Concrete fixtures used to evaluate the theorems -/

/-- The restriction of the Python hasattr oracle to the keys the concrete
patches below use: copy is a method of the pydantic BaseModel, so hasattr
is true on it although it is not a field. -/
def hasattrCopy : String → Bool := fun k => k == "copy"

/-- A patch whose only recognized key is out of range. -/
def patchTooLarge : Patch := [("max_results_per_query", .int 500)]

/-- A valid patch carrying one unknown key that is not an attribute of the
preferences object. -/
def patchWithUnknown : Patch := [("distance_unit", .str "kilometers"), ("foo", .int 1)]

/-- A manager with no sessions that has not yet run recovery. -/
def emptyMgr : UserContextManager :=
  { active_sessions := fun _ => none, current_user_id := none, initialized := false }

/-- A session for user a created at clock 0. -/
def sessA : UserSession := newUserSession "a" 0

/-- A manager whose current user is a, holding only the session of a. -/
def mgrA : UserContextManager :=
  { active_sessions := fun u => if u = "a" then some sessA else none,
    current_user_id := some "a",
    initialized := true }

/-- A pool that returns nothing. -/
def poolEmpty : DbPool :=
  { runs := fun _ => [], shoes := fun _ => [], profile := fun _ => none }

/-- An environment where every user exists and the stores are empty. -/
def envOk : Env :=
  { user_exists := fun _ => true, recovery_rows := [], load_row := fun _ => none,
    default_unit := fun _ => none, cached_data := fun _ => [],
    save_ok := true, new_db_id := "db-1" }

/-- A stored session payload for the given user and last activity. -/
def storedFor (uid : String) (la : Nat) : StoredSession :=
  { user_id := uid, session_id := "sid-" ++ uid, created_at := 0, last_activity := la,
    preferences := none, conversation_context := {},
    cached_user_data := [], session_metadata := [] }

/-- An environment where no user exists but the durable store still holds an
active unexpired record for user u2. -/
def envUnknownUser : Env :=
  { envOk with
      user_exists := (fun _ => false),
      recovery_rows := [{ id := "row1", data := storedFor "u2" 3 }] }

/-- An environment whose durable store holds two active unexpired records
for user u, newest first as the recovery query orders them. -/
def envTwoRecords : Env :=
  { envOk with
      recovery_rows := [{ id := "r-new", data := storedFor "u" 9 },
                        { id := "r-old", data := storedFor "u" 5 }] }

/-- An environment whose durable store rejects every write. -/
def envSaveFails : Env := { envOk with save_ok := false }

/-- A dirty session that has never been persisted. -/
def dirtySess : UserSession := markDirty (newUserSession "a" 0)

/-! ## Helper lemmas about the preference machinery -/

theorem getD_idem (o : Option PrefValue) (d : PrefValue) : o.getD (o.getD d) = o.getD d := by
  cases o <;> rfl

theorem setPrefField_du (pr : UserPreferences) (k : String) (v : PrefValue) :
    (setPrefField pr k v).distance_unit =
      if k = "distance_unit" then v else pr.distance_unit := by
  unfold setPrefField; split_ifs <;> simp_all

theorem setPrefField_df (pr : UserPreferences) (k : String) (v : PrefValue) :
    (setPrefField pr k v).date_format =
      if k = "date_format" then v else pr.date_format := by
  unfold setPrefField; split_ifs <;> simp_all

theorem setPrefField_tz (pr : UserPreferences) (k : String) (v : PrefValue) :
    (setPrefField pr k v).timezone =
      if k = "timezone" then v else pr.timezone := by
  unfold setPrefField; split_ifs <;> simp_all

theorem setPrefField_lang (pr : UserPreferences) (k : String) (v : PrefValue) :
    (setPrefField pr k v).language =
      if k = "language" then v else pr.language := by
  unfold setPrefField; split_ifs <;> simp_all

theorem setPrefField_ne (pr : UserPreferences) (k : String) (v : PrefValue) :
    (setPrefField pr k v).notification_enabled =
      if k = "notification_enabled" then v else pr.notification_enabled := by
  unfold setPrefField; split_ifs <;> simp_all

theorem setPrefField_dr (pr : UserPreferences) (k : String) (v : PrefValue) :
    (setPrefField pr k v).detailed_responses =
      if k = "detailed_responses" then v else pr.detailed_responses := by
  unfold setPrefField; split_ifs <;> simp_all

theorem setPrefField_isd (pr : UserPreferences) (k : String) (v : PrefValue) :
    (setPrefField pr k v).include_social_data =
      if k = "include_social_data" then v else pr.include_social_data := by
  unfold setPrefField; split_ifs <;> simp_all

theorem setPrefField_mrq (pr : UserPreferences) (k : String) (v : PrefValue) :
    (setPrefField pr k v).max_results_per_query =
      if k = "max_results_per_query" then v else pr.max_results_per_query := by
  unfold setPrefField; split_ifs <;> simp_all

theorem applyPatch_field (g : UserPreferences → PrefValue) (name : String)
    (hset : ∀ pr k v, g (setPrefField pr k v) = if k = name then v else g pr) :
    ∀ (P : Patch) (pr), g (applyPatchExisting pr P) = (lastVal P name).getD (g pr) := by
  intro P
  induction P with
  | nil => intro pr; rfl
  | cons kv t ih =>
    intro pr
    have h1 : applyPatchExisting pr (kv :: t) =
        applyPatchExisting (setPrefField pr kv.1 kv.2) t := rfl
    rw [h1, ih, hset]
    simp only [lastVal]
    cases lastVal t name with
    | some v => simp
    | none => by_cases h : kv.1 = name <;> simp [h]

theorem userPreferences_extFields (a b : UserPreferences)
    (h1 : a.distance_unit = b.distance_unit) (h2 : a.date_format = b.date_format)
    (h3 : a.timezone = b.timezone) (h4 : a.language = b.language)
    (h5 : a.notification_enabled = b.notification_enabled)
    (h6 : a.detailed_responses = b.detailed_responses)
    (h7 : a.include_social_data = b.include_social_data)
    (h8 : a.max_results_per_query = b.max_results_per_query) : a = b := by
  cases a; cases b; simp_all

theorem prefsFromPatch_eq (P : Patch) (pr : UserPreferences)
    (h : prefsFromPatch P = .ok pr) :
    pr = { distance_unit := (lastVal P "distance_unit").getD (.str "miles"),
           date_format := (lastVal P "date_format").getD (.str "YYYY-MM-DD"),
           timezone := (lastVal P "timezone").getD (.str "UTC"),
           language := (lastVal P "language").getD (.str "en"),
           notification_enabled := (lastVal P "notification_enabled").getD (.bool true),
           detailed_responses := (lastVal P "detailed_responses").getD (.bool true),
           include_social_data := (lastVal P "include_social_data").getD (.bool true),
           max_results_per_query := (lastVal P "max_results_per_query").getD (.int 10) } := by
  unfold prefsFromPatch at h
  split at h
  · cases h; rfl
  · cases h

theorem applyPatch_fromPatch (P : Patch) (pr : UserPreferences)
    (h : prefsFromPatch P = .ok pr) : applyPatchExisting pr P = pr := by
  have hpr := prefsFromPatch_eq P pr h
  apply userPreferences_extFields
  · rw [applyPatch_field _ _ setPrefField_du, hpr]; exact getD_idem _ _
  · rw [applyPatch_field _ _ setPrefField_df, hpr]; exact getD_idem _ _
  · rw [applyPatch_field _ _ setPrefField_tz, hpr]; exact getD_idem _ _
  · rw [applyPatch_field _ _ setPrefField_lang, hpr]; exact getD_idem _ _
  · rw [applyPatch_field _ _ setPrefField_ne, hpr]; exact getD_idem _ _
  · rw [applyPatch_field _ _ setPrefField_dr, hpr]; exact getD_idem _ _
  · rw [applyPatch_field _ _ setPrefField_isd, hpr]; exact getD_idem _ _
  · rw [applyPatch_field _ _ setPrefField_mrq, hpr]; exact getD_idem _ _

theorem checkField_some (P : Patch) (k : String) (ok : PrefValue → Bool) (m : String)
    (r : Bool × String) (h : checkField P k ok m = some r) :
    r = (false, m) ∧ ∃ v, lastVal P k = some v ∧ ok v = false := by
  unfold checkField at h
  split at h
  next v heq =>
    split at h
    next => cases h
    next hok =>
      cases h
      exact ⟨rfl, v, heq, by simpa using hok⟩
  next => cases h

theorem checkField_none (P : Patch) (k : String) (ok : PrefValue → Bool) (m : String)
    (h : checkField P k ok m = none) :
    ∀ v, lastVal P k = some v → ok v = true := by
  intro v hv
  unfold checkField at h
  split at h
  next v2 heq =>
    rw [hv] at heq
    injection heq with h2
    subst h2
    split at h
    next hok => exact hok
    next => cases h
  next heq => rw [hv] at heq; cases heq

theorem setPrefField_unrecognized (pr : UserPreferences) (k : String) (v : PrefValue)
    (h : isPrefField k = false) : setPrefField pr k v = pr := by
  simp only [isPrefField, Bool.or_eq_false_iff, decide_eq_false_iff_not] at h
  obtain ⟨⟨⟨⟨⟨⟨⟨h1, h2⟩, h3⟩, h4⟩, h5⟩, h6⟩, h7⟩, h8⟩ := h
  simp [setPrefField, h1, h2, h3, h4, h5, h6, h7, h8]

theorem applyPatch_filter (P : Patch) :
    ∀ pr, applyPatchExisting pr (P.filter (fun kv => isPrefField kv.1)) =
      applyPatchExisting pr P := by
  induction P with
  | nil => intro pr; rfl
  | cons kv t ih =>
    intro pr
    by_cases h : isPrefField kv.1 = true
    · have hf : (kv :: t).filter (fun kv => isPrefField kv.1) =
          kv :: t.filter (fun kv => isPrefField kv.1) := by
        simp [List.filter, h]
      rw [hf]
      exact ih (setPrefField pr kv.1 kv.2)
    · have hf : (kv :: t).filter (fun kv => isPrefField kv.1) =
          t.filter (fun kv => isPrefField kv.1) := by
        simp [List.filter, Bool.eq_false_iff.mp (by simpa using h)]
      rw [hf]
      have hstep : applyPatchExisting pr (kv :: t) =
          applyPatchExisting (setPrefField pr kv.1 kv.2) t := rfl
      rw [hstep, setPrefField_unrecognized pr kv.1 kv.2 (by simpa using h)]
      exact ih pr

theorem applyPatchLoop_fst (attr : String → Bool) (P : Patch) :
    ∀ pr, (applyPatchLoop attr pr P).1 = applyPatchExisting pr (effPatch attr P) := by
  induction P with
  | nil => intro pr; rfl
  | cons kv t ih =>
    intro pr
    obtain ⟨k, v⟩ := kv
    by_cases hf : isPrefField k = true
    · simp only [applyPatchLoop, effPatch, hf, if_true]
      rw [ih]
      rfl
    · by_cases ha : attr k = true
      · simp [applyPatchLoop, effPatch, hf, ha]
        rfl
      · simp only [applyPatchLoop, effPatch, hf, ha, if_false, Bool.false_eq_true]
        rw [ih]

theorem applyPatchLoop_snd (attr : String → Bool) (P : Patch) :
    ∀ pr, (applyPatchLoop attr pr P).2 = abortKey attr P := by
  induction P with
  | nil => intro pr; rfl
  | cons kv t ih =>
    intro pr
    obtain ⟨k, v⟩ := kv
    by_cases hf : isPrefField k = true
    · simp only [applyPatchLoop, abortKey, hf, if_true]
      rw [ih]
    · by_cases ha : attr k = true
      · simp [applyPatchLoop, abortKey, hf, ha]
      · simp only [applyPatchLoop, abortKey, hf, ha, if_false, Bool.false_eq_true]
        rw [ih]

theorem abortKey_none_of_no_collision (attr : String → Bool) (P : Patch)
    (h : ∀ kv ∈ P, isPrefField kv.1 = false → attr kv.1 = false) :
    abortKey attr P = none := by
  induction P with
  | nil => rfl
  | cons kv t ih =>
    obtain ⟨k, v⟩ := kv
    have ht : ∀ kv ∈ t, isPrefField kv.1 = false → attr kv.1 = false :=
      fun kv hm => h kv (List.mem_cons_of_mem _ hm)
    by_cases hf : isPrefField k = true
    · simp only [abortKey, hf, if_true]
      exact ih ht
    · have ha : attr k = false :=
        h (k, v) (List.mem_cons_self _ _) (by simpa using hf)
      simp only [abortKey, hf, ha, if_false, Bool.false_eq_true]
      exact ih ht

theorem effPatch_eq_filter (attr : String → Bool) (P : Patch)
    (h : ∀ kv ∈ P, isPrefField kv.1 = false → attr kv.1 = false) :
    effPatch attr P = P.filter (fun kv => isPrefField kv.1) := by
  induction P with
  | nil => rfl
  | cons kv t ih =>
    obtain ⟨k, v⟩ := kv
    have ht : ∀ kv ∈ t, isPrefField kv.1 = false → attr kv.1 = false :=
      fun kv hm => h kv (List.mem_cons_of_mem _ hm)
    by_cases hf : isPrefField k = true
    · simp [effPatch, List.filter, hf, ih ht]
    · have ha : attr k = false :=
        h (k, v) (List.mem_cons_self _ _) (by simpa using hf)
      simp [effPatch, List.filter, hf, ha, ih ht]

/-! ## Helper lemmas about the session manager -/

theorem recoverFold_initialized (rows : List SessionRow) :
    ∀ acc : UserContextManager × List String,
      (rows.foldl recoverStep acc).1.initialized = acc.1.initialized := by
  induction rows with
  | nil => intro acc; rfl
  | cons row t ih =>
    intro acc
    rw [List.foldl_cons, ih]
    simp only [recoverStep]
    cases hm : acc.1.active_sessions (sessionFromDict row.data row.id).user_id with
    | none => simp [hm, setSession]
    | some s => simp [hm]

theorem recoverSessionsOnStartup_initialized (st : UserContextManager) (env : Env) :
    (recoverSessionsOnStartup st env).1.initialized = true := by
  unfold recoverSessionsOnStartup
  by_cases h : st.initialized
  · rw [if_pos h]; exact h
  · rw [if_neg h, recoverFold_initialized]

theorem recoverSessionsOnStartup_of_initialized (st : UserContextManager) (env : Env)
    (h : st.initialized = true) : recoverSessionsOnStartup st env = (st, []) := by
  unfold recoverSessionsOnStartup
  rw [if_pos h]

theorem setSession_lookup_self (st : UserContextManager) (uid : String) (s : UserSession) :
    (setSession st uid s).active_sessions uid = some s := by
  simp [setSession]

theorem afterRecovery_unknown (st1 : UserContextManager) (env : Env) (now : Nat)
    (uid : String) (hun : env.user_exists uid = false) :
    setCurrentUserAfterRecovery st1 env now uid =
      (.error ("User " ++ uid ++ " not found"), st1) := by
  unfold setCurrentUserAfterRecovery
  rw [if_pos hun]

theorem afterRecovery_mem (st1 : UserContextManager) (env : Env) (now : Nat)
    (uid : String) (s : UserSession) (hex : env.user_exists uid = true)
    (hmem : st1.active_sessions uid = some s) :
    setCurrentUserAfterRecovery st1 env now uid =
      (.ok (updateActivity s now),
        setSession { st1 with current_user_id := some uid } uid (updateActivity s now)) := by
  unfold setCurrentUserAfterRecovery
  rw [if_neg (by simp [hex])]
  simp [hmem]

theorem afterRecovery_load (st1 : UserContextManager) (env : Env) (now : Nat)
    (uid : String) (s : UserSession) (hex : env.user_exists uid = true)
    (hmem : st1.active_sessions uid = none) (hl : loadSessionFromDb env uid = some s) :
    setCurrentUserAfterRecovery st1 env now uid =
      (.ok (updateActivity s now),
        setSession { st1 with current_user_id := some uid } uid (updateActivity s now)) := by
  unfold setCurrentUserAfterRecovery
  rw [if_neg (by simp [hex])]
  simp [hmem, hl]

theorem afterRecovery_fresh (st1 : UserContextManager) (env : Env) (now : Nat)
    (uid : String) (hex : env.user_exists uid = true)
    (hmem : st1.active_sessions uid = none) (hl : loadSessionFromDb env uid = none) :
    setCurrentUserAfterRecovery st1 env now uid =
      (.ok (cacheUserData env (loadUserPreferences env (markDirty (newUserSession uid now)))),
        setSession { st1 with current_user_id := some uid } uid
          (cacheUserData env (loadUserPreferences env (markDirty (newUserSession uid now))))) := by
  unfold setCurrentUserAfterRecovery
  rw [if_neg (by simp [hex])]
  simp [hmem, hl]

theorem setCurrentUser_mem (st : UserContextManager) (env : Env) (t : Nat) (uid : String)
    (s : UserSession) (hinit : st.initialized = true)
    (hmem : st.active_sessions uid = some s) (hex : env.user_exists uid = true) :
    (setCurrentUser st env t uid).2.1.active_sessions uid = some (updateActivity s t) ∧
    (setCurrentUser st env t uid).2.1.initialized = true := by
  have hrec := recoverSessionsOnStartup_of_initialized st env hinit
  have hbody := afterRecovery_mem st env t uid s hex hmem
  simp [setCurrentUser, hrec, hbody, setSession, hinit]

theorem setCurrentUser_creates (st : UserContextManager) (env : Env) (t : Nat)
    (uid : String) (hex : env.user_exists uid = true) :
    ∃ s1, (setCurrentUser st env t uid).1 = .ok s1 ∧
      (setCurrentUser st env t uid).2.1.active_sessions uid = some s1 ∧
      (setCurrentUser st env t uid).2.1.initialized = true := by
  have hinit1 : (recoverSessionsOnStartup st env).1.initialized = true :=
    recoverSessionsOnStartup_initialized st env
  cases hm : (recoverSessionsOnStartup st env).1.active_sessions uid with
  | some s =>
    have hbody := afterRecovery_mem (recoverSessionsOnStartup st env).1 env t uid s hex hm
    exact ⟨updateActivity s t,
      by simp [setCurrentUser, hbody],
      by simp [setCurrentUser, hbody, setSession],
      by simp [setCurrentUser, hbody, setSession, hinit1]⟩
  | none =>
    cases hl : loadSessionFromDb env uid with
    | some s =>
      have hbody := afterRecovery_load (recoverSessionsOnStartup st env).1 env t uid s hex hm hl
      exact ⟨updateActivity s t,
        by simp [setCurrentUser, hbody],
        by simp [setCurrentUser, hbody, setSession],
        by simp [setCurrentUser, hbody, setSession, hinit1]⟩
    | none =>
      have hbody := afterRecovery_fresh (recoverSessionsOnStartup st env).1 env t uid hex hm hl
      exact ⟨cacheUserData env (loadUserPreferences env (markDirty (newUserSession uid t))),
        by simp [setCurrentUser, hbody],
        by simp [setCurrentUser, hbody, setSession],
        by simp [setCurrentUser, hbody, setSession, hinit1]⟩

theorem setUserFold_inv (env : Env) (uid : String) (hex : env.user_exists uid = true) :
    ∀ (ts : List Nat) (st : UserContextManager) (s : UserSession),
      st.initialized = true → st.active_sessions uid = some s →
      ∃ sN, (ts.foldl (setUserStep env uid) st).active_sessions uid = some sN ∧
        sN.session_id = s.session_id := by
  intro ts
  induction ts with
  | nil => intro st s h1 h2; exact ⟨s, h2, rfl⟩
  | cons t ts ih =>
    intro st s h1 h2
    rw [List.foldl_cons]
    have hstep := setCurrentUser_mem st env t uid s h1 h2 hex
    obtain ⟨sN, hmem, hsid⟩ := ih (setUserStep env uid st t) (updateActivity s t)
      hstep.2 hstep.1
    exact ⟨sN, hmem, hsid⟩

theorem validate_true_all_none (P : Patch) (h : (validatePreferencesDict P).1 = true) :
    checkField P "distance_unit" validUnit msgDistanceUnit = none ∧
    checkField P "max_results_per_query" validMaxResults msgMaxResults = none ∧
    checkField P "detailed_responses" validBoolVal msgDetailed = none ∧
    checkField P "include_social_data" validBoolVal msgSocial = none ∧
    checkField P "timezone" validTimezone msgTimezone = none := by
  cases hc1 : checkField P "distance_unit" validUnit msgDistanceUnit with
  | some r =>
    exfalso
    obtain ⟨hr, _⟩ := checkField_some _ _ _ _ _ hc1
    have hv : validatePreferencesDict P = r := by
      simp only [validatePreferencesDict, hc1]
    rw [hv, hr] at h
    simp at h
  | none =>
    cases hc2 : checkField P "max_results_per_query" validMaxResults msgMaxResults with
    | some r =>
      exfalso
      obtain ⟨hr, _⟩ := checkField_some _ _ _ _ _ hc2
      have hv : validatePreferencesDict P = r := by
        simp only [validatePreferencesDict, hc1, hc2]
      rw [hv, hr] at h
      simp at h
    | none =>
      cases hc3 : checkField P "detailed_responses" validBoolVal msgDetailed with
      | some r =>
        exfalso
        obtain ⟨hr, _⟩ := checkField_some _ _ _ _ _ hc3
        have hv : validatePreferencesDict P = r := by
          simp only [validatePreferencesDict, hc1, hc2, hc3]
        rw [hv, hr] at h
        simp at h
      | none =>
        cases hc4 : checkField P "include_social_data" validBoolVal msgSocial with
        | some r =>
          exfalso
          obtain ⟨hr, _⟩ := checkField_some _ _ _ _ _ hc4
          have hv : validatePreferencesDict P = r := by
            simp only [validatePreferencesDict, hc1, hc2, hc3, hc4]
          rw [hv, hr] at h
          simp at h
        | none =>
          cases hc5 : checkField P "timezone" validTimezone msgTimezone with
          | some r =>
            exfalso
            obtain ⟨hr, _⟩ := checkField_some _ _ _ _ _ hc5
            have hv : validatePreferencesDict P = r := by
              simp only [validatePreferencesDict, hc1, hc2, hc3, hc4, hc5]
            rw [hv, hr] at h
            simp at h
          | none => exact ⟨rfl, rfl, rfl, rfl, rfl⟩

/-! ## Claim theorems -/

/-- Claim C1: with a session active as user A, calling any of the three
guarded convenience getters (get_user_runs, get_user_shoes,
get_user_profile) with a different target user B raises the access-denied
error, returns no rows, executes no database query, and logs exactly one
audit-violation record. -/
theorem cross_user_getters_denied (st : UserContextManager) (now : Nat) (pool : DbPool)
    (A B : String) (lim : Nat)
    (hA : (getCurrentUserId st now).1 = some A) (hAB : A ≠ B) :
    ((getUserRuns st now pool B lim).result = .error accessDeniedData ∧
      (getUserRuns st now pool B lim).audit =
        [.violation (some A) ("access runs for user " ++ B)
          "Attempted cross-user data access"] ∧
      (getUserRuns st now pool B lim).db_queries = 0) ∧
    ((getUserShoes st now pool B).result = .error accessDeniedData ∧
      (getUserShoes st now pool B).audit =
        [.violation (some A) ("access shoes for user " ++ B)
          "Attempted cross-user data access"] ∧
      (getUserShoes st now pool B).db_queries = 0) ∧
    ((getUserProfile st now pool B).result = .error accessDeniedProfile ∧
      (getUserProfile st now pool B).audit =
        [.violation (some A) ("access profile for user " ++ B)
          "Attempted cross-user data access"] ∧
      (getUserProfile st now pool B).db_queries = 0) := by
  simp [getUserRuns, getUserShoes, getUserProfile, hA, hAB]

/-- Evaluation of claim C1 at a concrete state: user a is current, the
target is user b. -/
theorem cross_user_getters_denied_witness :
    (getCurrentUserId mgrA 5).1 = some "a" ∧
    (getUserRuns mgrA 5 poolEmpty "b" 10).result = .error accessDeniedData ∧
    (getUserRuns mgrA 5 poolEmpty "b" 10).audit =
      [.violation (some "a") ("access runs for user " ++ "b")
        "Attempted cross-user data access"] ∧
    (getUserRuns mgrA 5 poolEmpty "b" 10).db_queries = 0 ∧
    (getUserShoes mgrA 5 poolEmpty "b").result = .error accessDeniedData ∧
    (getUserProfile mgrA 5 poolEmpty "b").result = .error accessDeniedProfile := by
  have h := cross_user_getters_denied mgrA 5 poolEmpty "a" "b" 10 rfl (by decide)
  exact ⟨rfl, h.1.1, h.1.2.1, h.1.2.2, h.2.1.1, h.2.2.1⟩

/-- Claim C2 (counterexample): the scoped-query check rejects a statement
containing a bare single-row lookup id = $1 written, as the claim writes
it, with spaces around the equals sign; only the spaceless form matches
the WHERE id=$ pattern. -/
theorem bare_id_lookup_with_spaces_rejected :
    hasUserFilter ("SELECT name FROM \"Users\" WHERE id = $1".data) = false := by
  decide

/-- Claim C2 (amended): any statement containing the user-id column token
in any casing or quoting, or a bare id=$ lookup written without spaces
around the equals sign, is accepted; the structurally identical statement
with the predicate stripped is rejected; known system statements are
accepted without any predicate. -/
theorem scoped_query_check_amended :
    (∀ q : PyStr, hasSub ("USERID".data) (pyUpper q) = true → hasUserFilter q = true) ∧
    (∀ q : PyStr, hasSub ("WHERE ID=$".data) (pyUpper q) = true → hasUserFilter q = true) ∧
    hasUserFilter ("SELECT * FROM \"Runs\" WHERE \"userId\" = $1".data) = true ∧
    hasUserFilter ("SELECT * FROM Runs WHERE userId = $1".data) = true ∧
    hasUserFilter ("SELECT * FROM \"Runs\"".data) = false ∧
    hasUserFilter ("SELECT * FROM Runs".data) = false ∧
    hasUserFilter ("SELECT id, name FROM \"Users\" WHERE id=$1".data) = true ∧
    hasUserFilter ("SELECT table_name FROM information_schema.tables".data) = true ∧
    hasUserFilter ("SHOW TABLES".data) = true := by
  refine ⟨?_, ?_, by decide, by decide, by decide, by decide, by decide, by decide,
    by decide⟩
  · intro q h
    have hp : userFilterPatterns.any (fun p => hasSub p (pyUpper q)) = true :=
      List.any_eq_true.mpr ⟨"USERID".data, by simp [userFilterPatterns], h⟩
    simp [hasUserFilter, hp]
  · intro q h
    have hp : userFilterPatterns.any (fun p => hasSub p (pyUpper q)) = true :=
      List.any_eq_true.mpr ⟨"WHERE ID=$".data, by simp [userFilterPatterns], h⟩
    simp [hasUserFilter, hp]

/-- Evaluation of the amended claim C2 at a concrete accepted query. -/
theorem scoped_query_check_amended_witness :
    hasSub ("USERID".data) (pyUpper ("SELECT * FROM Shoes WHERE userId=$1".data)) = true ∧
    hasUserFilter ("SELECT * FROM Shoes WHERE userId=$1".data) = true := by
  refine ⟨by decide, ?_⟩
  exact scoped_query_check_amended.1 ("SELECT * FROM Shoes WHERE userId=$1".data) (by decide)

/-- Claim C3 (code bug): when the durable write of a dirty session fails,
the failure is swallowed inside _save_session_to_db, so the save loop
still marks the session clean: no durable write happened, yet the dirty
flag is cleared and the next tick does nothing instead of retrying. -/
theorem dirty_flag_cleared_despite_failed_save (s : UserSession) (env : Env)
    (hd : s.needs_db_save = true) (hfail : env.save_ok = false) :
    (saveSessionToDb s env).2 = false ∧
    (saveLoopBody s env).needs_db_save = false ∧
    saveLoopBody (saveLoopBody s env) env = saveLoopBody s env := by
  cases hdb : s.db_id <;>
    simp [saveLoopBody, saveSessionToDb, markClean, hd, hfail, hdb]

/-- Evaluation of claim C3 at a concrete dirty session and a store whose
writes fail. -/
theorem dirty_flag_cleared_despite_failed_save_witness :
    dirtySess.needs_db_save = true ∧ envSaveFails.save_ok = false ∧
    (saveSessionToDb dirtySess envSaveFails).2 = false ∧
    (saveLoopBody dirtySess envSaveFails).needs_db_save = false := by
  have h := dirty_flag_cleared_despite_failed_save dirtySess envSaveFails rfl rfl
  exact ⟨rfl, rfl, h.1, h.2.1⟩

/-- Claim C4: a session whose last activity is older than the 60 minute
idle timeout is never returned by get_current_session: the expiry check
runs on the access itself, the entry is evicted from the map, the
current-user pointer is cleared, none is returned, and no other map entry
is touched. -/
theorem expired_session_not_returned (st : UserContextManager) (now : Nat) (uid : String)
    (s : UserSession) (hcur : st.current_user_id = some uid)
    (hmem : st.active_sessions uid = some s) (hexp : s.last_activity + 60 < now) :
    (getCurrentSession st now).1 = none ∧
    (getCurrentSession st now).2.active_sessions uid = none ∧
    (getCurrentSession st now).2.current_user_id = none ∧
    ∀ u, u ≠ uid → (getCurrentSession st now).2.active_sessions u = st.active_sessions u := by
  have hexb : isExpired s now = true := by unfold isExpired; exact decide_eq_true hexp
  refine ⟨?_, ?_, ?_, ?_⟩
  · simp [getCurrentSession, hcur, hmem, hexb]
  · simp [getCurrentSession, hcur, hmem, hexb, delSession]
  · simp [getCurrentSession, hcur, hmem, hexb, delSession]
  · intro u hu
    simp [getCurrentSession, hcur, hmem, hexb, delSession, hu]

/-- Evaluation of claim C4: the session of user a, last active at clock 0,
is gone when accessed at clock 100. -/
theorem expired_session_not_returned_witness :
    mgrA.current_user_id = some "a" ∧ mgrA.active_sessions "a" = some sessA ∧
    sessA.last_activity + 60 < 100 ∧
    (getCurrentSession mgrA 100).1 = none ∧
    (getCurrentSession mgrA 100).2.active_sessions "a" = none ∧
    (getCurrentSession mgrA 100).2.current_user_id = none := by
  have h := expired_session_not_returned mgrA 100 "a" sessA rfl rfl (by decide)
  exact ⟨rfl, rfl, by decide, h.1, h.2.1, h.2.2.1⟩

/-- Claim C5: after a first set_current_user call for an existing user and
any sequence of further calls for that user, the map holds exactly one
session under that user id and its session id equals the one after the
first call. -/
theorem session_unique_and_session_id_stable (st0 : UserContextManager) (env : Env)
    (uid : String) (t0 : Nat) (ts : List Nat) (hex : env.user_exists uid = true) :
    ∃ s1, (setCurrentUser st0 env t0 uid).1 = .ok s1 ∧
      (setCurrentUser st0 env t0 uid).2.1.active_sessions uid = some s1 ∧
      ∃ sN, (ts.foldl (setUserStep env uid)
          (setCurrentUser st0 env t0 uid).2.1).active_sessions uid = some sN ∧
        sN.session_id = s1.session_id := by
  obtain ⟨s1, hok, hmem, hinit⟩ := setCurrentUser_creates st0 env t0 uid hex
  exact ⟨s1, hok, hmem, setUserFold_inv env uid hex ts _ s1 hinit hmem⟩

/-- Evaluation of claim C5: three calls at clocks 1, 2, 3 for the same
user starting from an empty manager. -/
theorem session_unique_and_session_id_stable_witness :
    envOk.user_exists "u7" = true ∧
    (∃ s1, (setCurrentUser emptyMgr envOk 1 "u7").1 = .ok s1 ∧
      (setCurrentUser emptyMgr envOk 1 "u7").2.1.active_sessions "u7" = some s1 ∧
      ∃ sN, ([2, 3].foldl (setUserStep envOk "u7")
          (setCurrentUser emptyMgr envOk 1 "u7").2.1).active_sessions "u7" = some sN ∧
        sN.session_id = s1.session_id) := by
  exact ⟨rfl, session_unique_and_session_id_stable emptyMgr envOk "u7" 1 [2, 3] rfl⟩

/-- Claim C6 (counterexample): on a manager that has not yet run startup
recovery, set_current_user for an unknown user id still raises the
not-found error, but the recovery pass that runs first adds a recovered
session to the in-memory map, so the map does not stay unchanged. -/
theorem unknown_user_recovery_mutates_map :
    (setCurrentUser emptyMgr envUnknownUser 0 "u1").1 = .error "User u1 not found" ∧
    emptyMgr.active_sessions "u2" = none ∧
    (setCurrentUser emptyMgr envUnknownUser 0 "u1").2.1.active_sessions "u2" =
      some (sessionFromDict (storedFor "u2" 3) "row1") := by
  refine ⟨?_, rfl, ?_⟩ <;> rfl

/-- Claim C6 (amended): once startup recovery has completed, a
set_current_user call with an unknown user id raises the not-found error
and leaves the manager state, so in particular the session map and the
current-user pointer, entirely unchanged; no recovery update is issued. -/
theorem unknown_user_rejected_once_initialized (st : UserContextManager) (env : Env)
    (now : Nat) (uid : String) (hinit : st.initialized = true)
    (hun : env.user_exists uid = false) :
    (setCurrentUser st env now uid).1 = .error ("User " ++ uid ++ " not found") ∧
    (setCurrentUser st env now uid).2.1 = st ∧
    (setCurrentUser st env now uid).2.2 = [] := by
  have hrec := recoverSessionsOnStartup_of_initialized st env hinit
  have hbody := afterRecovery_unknown st env now uid hun
  simp [setCurrentUser, hrec, hbody]

/-- Evaluation of the amended claim C6 at an initialized manager. -/
theorem unknown_user_rejected_once_initialized_witness :
    mgrA.initialized = true ∧ envUnknownUser.user_exists "u1" = false ∧
    (setCurrentUser mgrA envUnknownUser 0 "u1").1 = .error ("User " ++ "u1" ++ " not found") ∧
    (setCurrentUser mgrA envUnknownUser 0 "u1").2.1 = mgrA ∧
    (setCurrentUser mgrA envUnknownUser 0 "u1").2.2 = [] := by
  have h := unknown_user_rejected_once_initialized mgrA envUnknownUser 0 "u1" rfl rfl
  exact ⟨rfl, rfl, h.1, h.2.1, h.2.2⟩

/-- Claim C7: given two durable records for the same user, both active and
unexpired, delivered newest-first as the recovery query orders them,
startup recovery keeps in memory the record with the later last activity
and marks exactly the other record inactive in storage, exactly once. -/
theorem recovery_keeps_latest_marks_older_inactive (st : UserContextManager) (env : Env)
    (r1 r2 : SessionRow) (u : String) (hrows : env.recovery_rows = [r1, r2])
    (hu1 : r1.data.user_id = u) (hu2 : r2.data.user_id = u)
    (_horder : r2.data.last_activity < r1.data.last_activity)
    (hinit : st.initialized = false) (hempty : st.active_sessions u = none) :
    (recoverSessionsOnStartup st env).1.active_sessions u =
      some (sessionFromDict r1.data r1.id) ∧
    (recoverSessionsOnStartup st env).2 = [r2.id] := by
  have h1 : (sessionFromDict r1.data r1.id).user_id = u := by simp [sessionFromDict, hu1]
  have h2 : (sessionFromDict r2.data r2.id).user_id = u := by simp [sessionFromDict, hu2]
  unfold recoverSessionsOnStartup
  rw [if_neg (by simp [hinit]), hrows]
  simp only [List.foldl_cons, List.foldl_nil]
  simp [recoverStep, h1, h2, hempty, setSession]

/-- Evaluation of claim C7 on a store holding a newer record r-new and an
older record r-old for user u. -/
theorem recovery_keeps_latest_marks_older_inactive_witness :
    envTwoRecords.recovery_rows =
      [⟨"r-new", storedFor "u" 9⟩, ⟨"r-old", storedFor "u" 5⟩] ∧
    (recoverSessionsOnStartup emptyMgr envTwoRecords).1.active_sessions "u" =
      some (sessionFromDict (storedFor "u" 9) "r-new") ∧
    (recoverSessionsOnStartup emptyMgr envTwoRecords).2 = ["r-old"] := by
  have h := recovery_keeps_latest_marks_older_inactive emptyMgr envTwoRecords
    ⟨"r-new", storedFor "u" 9⟩ ⟨"r-old", storedFor "u" 5⟩ "u" rfl rfl rfl
    (by decide) rfl rfl
  exact ⟨rfl, h.1, h.2⟩

/-- Claim C9 (counterexample): a patch whose only key is copy, a pydantic
attribute name, passes the validator, yet the update fails with the
pydantic has-no-field error instead of accepting and ignoring the key. -/
theorem validator_passing_attr_key_fails_update :
    (validatePreferencesDict [("copy", PrefValue.int 1)]).1 = true ∧
    updatePreferencesTool hasattrCopy (some (some {})) [("copy", PrefValue.int 1)] =
      (.failed ("object has no field " ++ "copy"), some (some {})) := by
  exact ⟨by decide, by decide⟩

/-- Claim C9 (amended): the preferences entry point validates each
recognized key against its contract, rejects the whole update with the
failing field message and leaves the preferences unchanged on any
recognized-but-invalid value; on a valid payload whose keys outside the
preference fields are not attributes of the pydantic model, the update is
applied and those keys have no effect (keys colliding with a pydantic
attribute name instead make the merge raise, failing the update). -/
theorem preferences_validated_amended (attr : String → Bool)
    (cur : Option UserPreferences) (P : Patch) :
    ((validatePreferencesDict P).1 = false →
      updatePreferencesTool attr (some cur) P =
        (.invalid (validatePreferencesDict P).2, some cur)) ∧
    ((validatePreferencesDict P).1 = false →
      (∃ v, lastVal P "distance_unit" = some v ∧ validUnit v = false ∧
        (validatePreferencesDict P).2 = msgDistanceUnit) ∨
      (∃ v, lastVal P "max_results_per_query" = some v ∧ validMaxResults v = false ∧
        (validatePreferencesDict P).2 = msgMaxResults) ∨
      (∃ v, lastVal P "detailed_responses" = some v ∧ validBoolVal v = false ∧
        (validatePreferencesDict P).2 = msgDetailed) ∨
      (∃ v, lastVal P "include_social_data" = some v ∧ validBoolVal v = false ∧
        (validatePreferencesDict P).2 = msgSocial) ∨
      (∃ v, lastVal P "timezone" = some v ∧ validTimezone v = false ∧
        (validatePreferencesDict P).2 = msgTimezone)) ∧
    (∀ k v, k ∈ validatedKeys → lastVal P k = some v → contractOk k v = false →
      (validatePreferencesDict P).1 = false) ∧
    (∀ pr, (validatePreferencesDict P).1 = true → cur = some pr →
      (∀ kv ∈ P, isPrefField kv.1 = false → attr kv.1 = false) →
      updatePreferencesTool attr (some cur) P =
        (.updated, some (some (applyPatchExisting pr
          (P.filter (fun kv => isPrefField kv.1)))))) := by
  refine ⟨?_, ?_, ?_, ?_⟩
  · intro h
    simp [updatePreferencesTool, h]
  · intro h
    cases hc1 : checkField P "distance_unit" validUnit msgDistanceUnit with
    | some r =>
      obtain ⟨hr, v, hv, hok⟩ := checkField_some _ _ _ _ _ hc1
      have hval : validatePreferencesDict P = r := by
        simp only [validatePreferencesDict, hc1]
      exact Or.inl ⟨v, hv, hok, by rw [hval, hr]⟩
    | none =>
      cases hc2 : checkField P "max_results_per_query" validMaxResults msgMaxResults with
      | some r =>
        obtain ⟨hr, v, hv, hok⟩ := checkField_some _ _ _ _ _ hc2
        have hval : validatePreferencesDict P = r := by
          simp only [validatePreferencesDict, hc1, hc2]
        exact Or.inr (Or.inl ⟨v, hv, hok, by rw [hval, hr]⟩)
      | none =>
        cases hc3 : checkField P "detailed_responses" validBoolVal msgDetailed with
        | some r =>
          obtain ⟨hr, v, hv, hok⟩ := checkField_some _ _ _ _ _ hc3
          have hval : validatePreferencesDict P = r := by
            simp only [validatePreferencesDict, hc1, hc2, hc3]
          exact Or.inr (Or.inr (Or.inl ⟨v, hv, hok, by rw [hval, hr]⟩))
        | none =>
          cases hc4 : checkField P "include_social_data" validBoolVal msgSocial with
          | some r =>
            obtain ⟨hr, v, hv, hok⟩ := checkField_some _ _ _ _ _ hc4
            have hval : validatePreferencesDict P = r := by
              simp only [validatePreferencesDict, hc1, hc2, hc3, hc4]
            exact Or.inr (Or.inr (Or.inr (Or.inl ⟨v, hv, hok, by rw [hval, hr]⟩)))
          | none =>
            cases hc5 : checkField P "timezone" validTimezone msgTimezone with
            | some r =>
              obtain ⟨hr, v, hv, hok⟩ := checkField_some _ _ _ _ _ hc5
              have hval : validatePreferencesDict P = r := by
                simp only [validatePreferencesDict, hc1, hc2, hc3, hc4, hc5]
              exact Or.inr (Or.inr (Or.inr (Or.inr ⟨v, hv, hok, by rw [hval, hr]⟩)))
            | none =>
              exfalso
              have hval : validatePreferencesDict P = (true, "Valid preferences") := by
                simp only [validatePreferencesDict, hc1, hc2, hc3, hc4, hc5]
              rw [hval] at h
              simp at h
  · intro k v hk hlast hbad
    by_cases hval : (validatePreferencesDict P).1 = false
    · exact hval
    · exfalso
      have htrue : (validatePreferencesDict P).1 = true := by
        revert hval; cases (validatePreferencesDict P).1 <;> simp
      obtain ⟨hn1, hn2, hn3, hn4, hn5⟩ := validate_true_all_none P htrue
      simp only [validatedKeys, List.mem_cons, List.mem_singleton] at hk
      rcases hk with hk | hk | hk | hk | hk | hk
      · subst hk
        have := checkField_none _ _ _ _ hn1 v hlast
        simp [contractOk] at hbad
        rw [this] at hbad
        cases hbad
      · subst hk
        have := checkField_none _ _ _ _ hn2 v hlast
        simp [contractOk] at hbad
        rw [this] at hbad
        cases hbad
      · subst hk
        have := checkField_none _ _ _ _ hn3 v hlast
        simp [contractOk] at hbad
        rw [this] at hbad
        cases hbad
      · subst hk
        have := checkField_none _ _ _ _ hn4 v hlast
        simp [contractOk] at hbad
        rw [this] at hbad
        cases hbad
      · subst hk
        have := checkField_none _ _ _ _ hn5 v hlast
        simp [contractOk] at hbad
        rw [this] at hbad
        cases hbad
      · cases hk
  · intro pr h hcur hnoc
    subst hcur
    have hab : (applyPatchLoop attr pr P).2 = none := by
      rw [applyPatchLoop_snd]
      exact abortKey_none_of_no_collision attr P hnoc
    have hfst : (applyPatchLoop attr pr P).1 =
        applyPatchExisting pr (P.filter (fun kv => isPrefField kv.1)) := by
      rw [applyPatchLoop_fst, effPatch_eq_filter attr P hnoc]
    simp [updatePreferencesTool, h, hab, hfst]

/-- Evaluation of the amended claim C9: the out-of-range patch of the spec
example is rejected with the max-results message and leaves the defaults
unchanged, and a valid patch carrying a harmless unknown key is applied
with that key ignored. -/
theorem preferences_validated_amended_witness :
    ((validatePreferencesDict patchTooLarge).1 = false ∧
      updatePreferencesTool hasattrCopy (some (some {})) patchTooLarge =
        (.invalid msgMaxResults, some (some {}))) ∧
    ((validatePreferencesDict patchWithUnknown).1 = true ∧
      updatePreferencesTool hasattrCopy (some (some {})) patchWithUnknown =
        (.updated, some (some (applyPatchExisting {}
          (patchWithUnknown.filter (fun kv => isPrefField kv.1)))))) := by
  refine ⟨⟨by decide, ?_⟩, ⟨by decide, ?_⟩⟩
  · exact (preferences_validated_amended hasattrCopy (some {}) patchTooLarge).1 (by decide)
  · exact (preferences_validated_amended hasattrCopy (some {}) patchWithUnknown).2.2.2
      {} (by decide) rfl (by decide)

/-- Claim C10: every get_current_session call that returns a session has
touched exactly that session: last activity is set to the current clock,
the dirty flag is set, every other session field is unchanged, and the
map holds the touched session under the current user id. -/
theorem get_current_session_touches (st : UserContextManager) (now : Nat)
    (s2 : UserSession) (h : (getCurrentSession st now).1 = some s2) :
    ∃ uid s, st.current_user_id = some uid ∧ st.active_sessions uid = some s ∧
      s2 = { s with last_activity := now, needs_db_save := true } ∧
      (getCurrentSession st now).2 = setSession st uid s2 := by
  cases hc : st.current_user_id with
  | none => simp [getCurrentSession, hc] at h
  | some uid =>
    cases hm : st.active_sessions uid with
    | none => simp [getCurrentSession, hc, hm] at h
    | some s =>
      by_cases he : isExpired s now = false
      · have h2 : updateActivity s now = s2 := by
          simpa [getCurrentSession, hc, hm, he] using h
        refine ⟨uid, s, rfl, hm, ?_, ?_⟩
        · rw [← h2]; rfl
        · simp [getCurrentSession, hc, hm, he, h2]
      · have he2 : isExpired s now = true := by
          revert he; cases isExpired s now <;> simp
        simp [getCurrentSession, hc, hm, he2] at h

/-- Evaluation of claim C10: the access at clock 5 returns the session of
user a touched to clock 5. -/
theorem get_current_session_touches_witness :
    (getCurrentSession mgrA 5).1 = some (updateActivity sessA 5) ∧
    (∃ uid s, mgrA.current_user_id = some uid ∧ mgrA.active_sessions uid = some s ∧
      updateActivity sessA 5 = { s with last_activity := 5, needs_db_save := true } ∧
      (getCurrentSession mgrA 5).2 = setSession mgrA uid (updateActivity sessA 5)) := by
  exact ⟨rfl, get_current_session_touches mgrA 5 (updateActivity sessA 5) rfl⟩

end Maratron
